import Mathlib

/-!
Verification of the price-discovery and reconciliation pipeline of the
billio backend (`app/services/smart_price_service.py`,
`app/services/ai_cron_service.py`, `app/services/google_search_service.py`,
`app/services/subscription_service.py`).

The Python code is shallowly embedded: every function is translated to an
executable Lean definition; external backends (Google search, Gemini,
Supabase) appear as explicit function parameters; a call that may raise an
exception is modelled with `Except`; Python `Decimal` values are modelled
as rationals `ℚ`.
-/

namespace Billio

/-! ## Basic string helpers (models of Python string operations) -/

/-- Model of Python `needle_startswith`: `l₁` is a prefix of `l₂`. -/
def listIsPrefix : List Char → List Char → Bool
  | [], _ => true
  | _ :: _, [] => false
  | a :: as, b :: bs => a = b && listIsPrefix as bs

/-- Model of Python `needle in hay` substring containment on strings
(character lists).  The empty needle is contained in everything, as in
Python. -/
def listContainsSub (needle : List Char) : List Char → Bool
  | [] => needle.isEmpty
  | b :: bs => listIsPrefix needle (b :: bs) || listContainsSub needle bs

/-- `strContains hay needle` models Python `needle in hay`. -/
def strContains (hay needle : String) : Bool :=
  listContainsSub needle.data hay.data

/-- `strStarts s p` models Python `s.startswith(p)`. -/
def strStarts (s p : String) : Bool :=
  listIsPrefix p.data s.data

/-- `strEnds s p` models Python `s.endswith(p)`. -/
def strEnds (s p : String) : Bool :=
  listIsPrefix p.data.reverse s.data.reverse

/-- Numeric value of a list of decimal digit characters. -/
def natOfDigits (l : List Char) : Nat :=
  l.foldl (fun a c => a * 10 + (c.toNat - '0'.toNat)) 0

/-- Model of Python `s.strip()` on a character list: drop leading and
trailing whitespace. -/
def pyStrip (cs : List Char) : List Char :=
  ((cs.dropWhile Char.isWhitespace).reverse.dropWhile Char.isWhitespace).reverse

/-- Model of Python `s.strip()` on strings. -/
def strStrip (s : String) : String :=
  String.mk (pyStrip s.data)

/-- Model of Python `s.lower()` (ASCII case folding suffices for the
domain names and service keys compared here). -/
def strLower (s : String) : String :=
  String.mk (s.data.map Char.toLower)

/-! ## Python `decimal.Decimal` constructor on strings

`parseDecimal` models `Decimal(s)` for a finite numeric literal:
optional sign, integer digits, optional fractional part, optional
exponent.  Special values (`Infinity`, `NaN`) are out of scope of the
data that reaches these call sites and are modelled as failure (`none`),
like any other malformed string (on which `Decimal` raises
`InvalidOperation`). -/

/-- Split an optional leading sign; returns `(negative, rest)`. -/
def splitSign : List Char → Bool × List Char
  | '-' :: t => (true, t)
  | '+' :: t => (false, t)
  | cs => (false, cs)

/-- Parse the optional exponent suffix `[eE][+-]?digits`; `some 0` when
absent, `none` when malformed. -/
def parseExponent : List Char → Option Int
  | [] => some 0
  | e :: t =>
    if e = 'e' ∨ e = 'E' then
      let sgn := splitSign t
      let ed := sgn.2.takeWhile Char.isDigit
      if ed.isEmpty ∨ ¬(sgn.2.dropWhile Char.isDigit).isEmpty then none
      else some (if sgn.1 then -(natOfDigits ed : Int) else (natOfDigits ed : Int))
    else none

/-- Model of `Decimal(s)` on a numeric-literal string: `none` when the
constructor would raise. -/
def parseDecimal (s : String) : Option ℚ :=
  let cs := pyStrip s.data
  let sgn := splitSign cs
  let ip := sgn.2.takeWhile Char.isDigit
  let rest1 := sgn.2.dropWhile Char.isDigit
  let fpRest : List Char × List Char :=
    match rest1 with
    | '.' :: t => (t.takeWhile Char.isDigit, t.dropWhile Char.isDigit)
    | _ => ([], rest1)
  let fp := fpRest.1
  if ip.isEmpty ∧ fp.isEmpty then none
  else
    match parseExponent fpRest.2 with
    | none => none
    | some e =>
      let c : Nat := natOfDigits (ip ++ fp) * 10 ^ e.toNat
      let num : Int := if sgn.1 then -(c : Int) else (c : Int)
      some (mkRat num (10 ^ (fp.length + (-e).toNat)))

/-! ## The regex passes of `_extract_decimal`

Both `smart_price_service._extract_decimal` and
`ai_cron_service._extract_decimal` (textually identical) run
`re.search(r"(\d{1,5}[\.,]\d{1,2})", text)` and, on failure,
`re.search(r"(\d{2,6})", text)`.  The matchers below implement these two
patterns with Python `re` semantics: leftmost starting position wins and,
at a given position, greedy quantifiers backtrack from the longest
repetition count down. -/

/-- Greedy match of `\d{1,n}[.,]\d{1,2}` at the current position, trying
the integer-part length `n` first and backtracking downwards.  Returns the
matched characters. -/
def tryDecAt : Nat → List Char → Option (List Char)
  | 0, _ => none
  | n + 1, cs =>
    let pre := cs.take (n + 1)
    if pre.length = n + 1 ∧ pre.all Char.isDigit then
      match cs.drop (n + 1) with
      | sep :: rest =>
        if sep = '.' ∨ sep = ',' then
          match rest with
          | a :: b :: _ =>
            if a.isDigit then
              some (pre ++ [sep] ++ if b.isDigit then [a, b] else [a])
            else tryDecAt n cs
          | [a] => if a.isDigit then some (pre ++ [sep, a]) else tryDecAt n cs
          | [] => tryDecAt n cs
        else tryDecAt n cs
      | [] => tryDecAt n cs
    else tryDecAt n cs

/-- `re.search` for `\d{1,5}[\.,]\d{1,2}`: scan for the leftmost position
with a match. -/
def searchDec : List Char → Option (List Char)
  | [] => none
  | c :: cs =>
    match tryDecAt 5 (c :: cs) with
    | some m => some m
    | none => searchDec cs

/-- Greedy match of `\d{lo,n}` at the current position (`lo ≤ n`),
backtracking from `n` repetitions down to `lo`. -/
def tryIntAt (lo : Nat) : Nat → List Char → Option (List Char)
  | 0, _ => none
  | n + 1, cs =>
    if n + 1 < lo then none
    else
      let pre := cs.take (n + 1)
      if pre.length = n + 1 ∧ pre.all Char.isDigit then some pre
      else tryIntAt lo n cs

/-- `re.search` for `\d{2,6}`. -/
def searchInt : List Char → Option (List Char)
  | [] => none
  | c :: cs =>
    match tryIntAt 2 6 (c :: cs) with
    | some m => some m
    | none => searchInt cs

/-- Model of `_extract_decimal(text)` (identical in
`smart_price_service.py` and `ai_cron_service.py`): first regex pass for
a `1-5` digit integer part, `.` or `,` separator, `1-2` fractional
digits, with `,` normalised to `.`; integer fallback `\d{2,6}`; `None`
when neither matches. -/
def extract_decimal (text : String) : Option ℚ :=
  match searchDec text.data with
  | some m => parseDecimal (String.mk (m.map fun c => if c = ',' then '.' else c))
  | none =>
    match searchInt text.data with
    | some m2 => parseDecimal (String.mk m2)
    | none => none

example : extract_decimal "229.99" = some (mkRat 22999 100) := by decide
example : extract_decimal "229,99" = some (mkRat 22999 100) := by decide
example : extract_decimal "199" = some 199 := by decide
example : extract_decimal "fiyat bulunamadı" = none := by decide
example : extract_decimal "0" = none := by decide
example : extract_decimal "0.00" = some 0 := by decide
example : parseDecimal "149.99" = some (mkRat 14999 100) := by decide
example : parseDecimal "None" = none := by decide
example : parseDecimal "1e-2" = some (mkRat 1 100) := by decide
example : (mkRat 22999 100 : ℚ) = 22999 / 100 := by norm_num [mkRat, Rat.normalize_eq_mkRat]

/-! ## Reconciliation engine
(`subscription_service.SubscriptionService._calculate_price_alert_status`)

A subscription row arrives as a JSON dictionary.  The fields the function
touches are modelled explicitly; a JSON scalar value is `PyVal`:
`null`, a number (represented by the rational its `str()` representation
denotes — `Decimal(str(x))` round-trips it exactly), or a string. -/

/-- A JSON scalar as stored in the subscription / plan rows. -/
inductive PyVal where
  | null : PyVal
  | num (q : ℚ) : PyVal
  | strv (s : String) : PyVal
deriving DecidableEq, Repr

/-- Model of `Decimal(str(x))`: the string round-trip coercion.
`None` stringifies to `"None"`, which `Decimal` rejects; a number
round-trips exactly; a string value goes through the `Decimal`
constructor.  `none` models the constructor raising. -/
def decimalOfStr : PyVal → Option ℚ
  | .null => none
  | .num q => some q
  | .strv s => parseDecimal s

/-- The fields of the joined `service_plans` row read by the alert
computation.  `cached_price = PyVal.null` covers both a JSON `null` and a
missing key (`plans.get("cached_price")` yields `None` for both). -/
structure ServicePlansRow where
  cached_price : PyVal
deriving DecidableEq, Repr

/-- The fields of a subscription row read by the alert computation.
`service_plans = none` covers a missing key, a JSON `null` and an empty
(falsy) dictionary — all rejected by `if not plans`.  `amount = none`
models a missing `amount` key (`subscription.get("amount", 0)` then
defaults to `0`). -/
structure Subscription where
  service_plans : Option ServicePlansRow
  amount : Option PyVal
deriving DecidableEq, Repr

/-- Model of `_calculate_price_alert_status(subscription)`.  The
`try/except` of the source catches any `Decimal` conversion error and
returns `"none"`; here the failing conversion surfaces as
`decimalOfStr _ = none` and takes the same branch. -/
def calculate_price_alert_status (subscription : Subscription) : String :=
  match subscription.service_plans with
  | none => "none"
  | some plans =>
    match plans.cached_price with
    | .null => "none"
    | cachedVal =>
      match decimalOfStr (subscription.amount.getD (.num 0)),
            decimalOfStr cachedVal with
      | some user_amount, some cached_price =>
        if 0 < cached_price ∧ user_amount ≠ cached_price then "update_required"
        else "none"
      | _, _ => "none"

example : calculate_price_alert_status
    ⟨some ⟨.num (mkRat 17999 100)⟩, some (.num (mkRat 14999 100))⟩ = "update_required" := by
  decide
example : calculate_price_alert_status
    ⟨some ⟨.num (mkRat 14999 100)⟩, some (.num (mkRat 14999 100))⟩ = "none" := by decide
example : calculate_price_alert_status ⟨some ⟨.num 0⟩, some (.num (mkRat 14999 100))⟩ = "none" := by
  decide
example : calculate_price_alert_status ⟨some ⟨.null⟩, some (.num (mkRat 14999 100))⟩ = "none" := by
  decide
example : calculate_price_alert_status ⟨none, some (.num (mkRat 14999 100))⟩ = "none" := by decide
example : calculate_price_alert_status
    ⟨some ⟨.num 5⟩, some (.strv "garbage")⟩ = "none" := by decide

/-! ## Smart price pipeline (`smart_price_service.SmartPriceService`)

The two backends are explicit parameters: `search` models
`google_search_service.search_google` (its own internals are verified
separately below) and `gemini` models `gemini_service.ask_gemini_raw`,
whose contract is `Optional[str]`.  `findPriceT` additionally returns the
number of calls made to each backend, which the source performs as
awaited I/O. -/

/-- A processed search result as produced by
`GoogleSearchService.search_google` (all four fields default to `""`). -/
structure SearchResult where
  title : String
  snippet : String
  link : String
  displayLink : String
deriving DecidableEq, Repr

/-- The module-level `OFFICIAL_DOMAINS` table of
`smart_price_service.py`. -/
def OFFICIAL_DOMAINS : List (String × List String) :=
  [("netflix", ["netflix.com"]),
   ("spotify", ["spotify.com"]),
   ("exxen", ["exxen.com"]),
   ("disneyplus", ["disneyplus.com", "disneyplus.com.tr"]),
   ("amazonprimevideo", ["primevideo.com", "amazon.com"])]

/-- Model of `smart_price_service._normalize_service_key`:
`re.sub(r"\s+|\+", "", name).lower()`. -/
def normalize_service_key (name : String) : String :=
  strLower (String.mk (name.data.filter fun c => ¬(c.isWhitespace ∨ c = '+')))

/-- Model of `SmartPriceService._filter_official_results`.  A registered
entry with a non-empty domain list keeps results whose lower-cased `link`
or `displayLink` contains one of the registered suffixes; otherwise the
fallback keeps results whose lower-cased `link` or `displayLink` contains
the service key or starts with `"{key}."`.  (`if official_domains:` is
Python truthiness: a registered empty list also falls back.) -/
def filter_official_results (official_domains : List (String × List String))
    (results : List SearchResult) (service_key : String) : List SearchResult :=
  let od := (official_domains.find? fun p => p.1 = service_key).map Prod.snd
  results.filter fun r =>
    let link := strLower r.link
    let displayLink := strLower r.displayLink
    match od with
    | some (d :: ds) =>
      (d :: ds).any fun dom => strContains link dom || strContains displayLink dom
    | _ =>
      decide (service_key ≠ "") &&
        (strContains link service_key || strContains displayLink service_key ||
         strStarts link (service_key ++ ".") || strStarts displayLink (service_key ++ "."))

/-- The response dictionary of `SmartPriceService.find_price`:
`{"price": …, "currency": …, "source": …, "confidence": …}` — these four
keys and no others appear in every return statement of the source. -/
structure PriceResponse where
  price : Option ℚ
  currency : String
  source : Option String
  confidence : String
deriving DecidableEq, Repr

/-- Number of calls the pipeline made to each backend. -/
structure BackendCalls where
  searchCalls : Nat
  geminiCalls : Nat
deriving DecidableEq, Repr

/-- The f-string query of `find_price`. -/
def findPriceQuery (service_name plan_name : String) : String :=
  service_name ++ " Türkiye " ++ plan_name ++ " aylık ücret fiyatı 2025"

/-- The fixed extraction instruction of `find_price` (`system_prompt`
plus the aggregated context). -/
def findPricePrompt (service_name plan_name context_text : String) : String :=
  "Sen bir fiyat analiz uzmanısın. Görevin: Aşağıdaki metin içinden " ++
  "SADECE '" ++ service_name ++ "' servisine ait '" ++ plan_name ++
  "' (veya en yakın eşleşen plan) için geçerli AYLIK fiyatı bul.\n" ++
  "Kurallar:\n" ++
  "1. Sadece Türkiye (TL) fiyatını al.\n" ++
  "2. Yanıt olarak SADECE sayıyı ver (Örn: 229.99). Para birimi veya metin yazma.\n" ++
  "3. Eğer metinde '" ++ plan_name ++
  "' için net bir fiyat yoksa veya emin değilsen '0' döndür. Asla tahmin yapma." ++
  "\n\nMETİN:\n" ++ context_text

/-- `"\n".join(snippets)` over the surviving results. -/
def joinSnippets : List String → String
  | [] => ""
  | [s] => s
  | s :: rest => s ++ "\n" ++ joinSnippets rest

/-- First truthy (non-empty) `link` among the official results
(`primary_source` in the source). -/
def primarySource (official_results : List SearchResult) : Option String :=
  (official_results.map SearchResult.link).find? fun l => l ≠ ""

/-- The `price_decimal` computed by `find_price` from the stripped Gemini
text: a stripped `"0"` becomes `Decimal(0)` directly, anything else goes
through `_extract_decimal`. -/
def price_decimal_of (raw_text : String) : Option ℚ :=
  if raw_text = "0" then some 0 else extract_decimal raw_text

/-- The final classification of `find_price`: `price_decimal is None or
price_decimal == 0` yields no usable value, otherwise the parsed amount
is the usable price. -/
def usable_price (raw_text : String) : Option ℚ :=
  match price_decimal_of raw_text with
  | none => none
  | some q => if q = 0 then none else some q

/-- Model of `SmartPriceService.find_price`, parameterised by the two
backends and by the object's `official_domains` table, returning the
response together with the backend call counts.  Python `if not
service_name` is string falsiness, i.e. emptiness. -/
def findPriceT (search : String → List SearchResult) (gemini : String → Option String)
    (official_domains : List (String × List String)) (service_name plan_name : String) :
    PriceResponse × BackendCalls :=
  if service_name = "" ∨ plan_name = "" then
    (⟨none, "TRY", none, "low"⟩, ⟨0, 0⟩)
  else
    let results := search (findPriceQuery service_name plan_name)
    if results.isEmpty then (⟨none, "TRY", none, "low"⟩, ⟨1, 0⟩)
    else
      let service_key := normalize_service_key service_name
      let official_results := filter_official_results official_domains results service_key
      if official_results.isEmpty then (⟨none, "TRY", none, "low"⟩, ⟨1, 0⟩)
      else
        let source := primarySource official_results
        let context_text := joinSnippets (official_results.map SearchResult.snippet)
        let full_prompt := findPricePrompt service_name plan_name context_text
        match gemini full_prompt with
        | none => (⟨none, "TRY", source, "low"⟩, ⟨1, 1⟩)
        | some raw_response =>
          if raw_response = "" then (⟨none, "TRY", source, "low"⟩, ⟨1, 1⟩)
          else
            match usable_price (strStrip raw_response) with
            | none => (⟨none, "TRY", source, "low"⟩, ⟨1, 1⟩)
            | some q => (⟨some q, "TRY", source, "high"⟩, ⟨1, 1⟩)

/-- The mutable state of the `SmartPriceService` object: `__init__` sets
`self.official_domains = OFFICIAL_DOMAINS` and no method ever assigns to
`self` again.  `findPriceSt` is `find_price` as a state transformer on
the object. -/
structure SmartPriceServiceState where
  official_domains : List (String × List String)
deriving DecidableEq, Repr

/-- `find_price` acting on the service object: reads
`self.official_domains`, writes nothing back (the method body contains no
assignment to `self`). -/
def findPriceSt (search : String → List SearchResult) (gemini : String → Option String)
    (st : SmartPriceServiceState) (service_name plan_name : String) :
    PriceResponse × SmartPriceServiceState :=
  ((findPriceT search gemini st.official_domains service_name plan_name).1, st)

/-! ## Batch scheduler (`ai_cron_service.update_all_plan_prices`)

The Supabase reads are passed in as the already-fetched rows; the Supabase
`update(...).execute()` call is modelled by an oracle telling whether it
raises, and every issued update call is recorded in a write trace.  A call
site that may raise an unexpected exception is modelled with `Except
PyExn`: in the source, only the persistence write is inside a
`try/except` — the pipeline call `await _find_price_with_smart_rag(...)`
is not. -/

/-- An unexpected Python exception. -/
inductive PyExn where
  | exn : PyExn
deriving DecidableEq, Repr

/-- The fields of a `service_plans` row used by the scheduler.  String
fields use `""` for a missing/null value (only their truthiness is ever
tested before use). -/
structure PlanRow where
  id : String
  service_id : String
  plan_name : String
deriving DecidableEq, Repr

/-- The fields of a `services` row used by the scheduler. -/
structure ServiceRow where
  id : String
  name : String
  display_name : String
deriving DecidableEq, Repr

/-- The `{row["id"]: row for row in services}` dictionary: later rows win,
so lookup scans the reversed list. -/
def servicesById (services : List ServiceRow) (service_id : String) : Option ServiceRow :=
  services.reverse.find? fun row => row.id = service_id

/-- The summary dictionary returned by `update_all_plan_prices`. -/
structure BatchSummary where
  processed : Nat
  updated : Nat
  skipped : Nat
deriving DecidableEq, Repr

/-- One issued `supabase.table("service_plans").update({...}).eq("id",
plan_id).execute()` call. -/
structure PlanPriceWrite where
  plan_id : String
  cached_price : ℚ
  currency : String
  last_updated_ai : String
deriving DecidableEq, Repr

/-- Model of `ai_cron_service._normalize_service_key`:
`re.sub(r"\s+", "", name).lower()` (unlike the smart-price variant it does
not strip `+`). -/
def cron_normalize_service_key (name : String) : String :=
  strLower (String.mk (name.data.filter fun c => ¬c.isWhitespace))

/-- Model of `ai_cron_service._is_official_domain(display_link,
service_key)`. -/
def is_official_domain (display_link : String) (service_key : String) : Bool :=
  let dl := strLower display_link
  strContains dl service_key || strStarts dl (service_key ++ ".") ||
    strEnds dl ("." ++ service_key ++ ".com")

/-- The fixed query of `_find_price_with_smart_rag`. -/
def cronQuery (service_name plan_name : String) : String :=
  service_name ++ " " ++ plan_name ++ " Türkiye fiyatı"

/-- `"\n\n".join(context_parts)` where each part is
`f"Title: {title}\nSnippet: {snippet}\nLink: {link}"`. -/
def cronContext (official_results : List SearchResult) : String :=
  joinBlankLine (official_results.map fun r =>
    "Title: " ++ r.title ++ "\nSnippet: " ++ r.snippet ++ "\nLink: " ++ r.link)
where
  joinBlankLine : List String → String
    | [] => ""
    | [s] => s
    | s :: rest => s ++ "\n\n" ++ joinBlankLine rest

/-- The fixed extraction instruction of `_find_price_with_smart_rag`. -/
def cronPrompt : String :=
  "Aşağıdaki bağlamdan yalnızca parasal fiyatı çıkar. " ++
  "Sadece sayı olarak cevap ver (ör: 229.99). Para birimi yazma, metin yazma. " ++
  "Bağlamda birden fazla fiyat varsa en güncel ve bireysel plan fiyatını tercih et."

/-- Model of `ai_cron_service._find_price_with_smart_rag`, parameterised
by the search backend and by `gemini_service.ask_gemini(context, prompt)`.
Note there is no `"0"` short-circuit and no zero filter here: whatever
`_extract_decimal` yields — including `Decimal("0.00")` — is returned. -/
def find_price_with_smart_rag (search : String → List SearchResult)
    (gemini : String → String → Option String) (service_name plan_name : String) :
    Option ℚ :=
  if service_name = "" ∨ plan_name = "" then none
  else
    let results := search (cronQuery service_name plan_name)
    if results.isEmpty then none
    else
      let service_key := cron_normalize_service_key service_name
      let official_results := results.filter fun r =>
        is_official_domain r.displayLink service_key
      if official_results.isEmpty then none
      else
        match gemini (cronContext official_results) cronPrompt with
        | none => none
        | some text => if text = "" then none else extract_decimal text

/-- The per-plan loop of `update_all_plan_prices`.  `find_price` models
the awaited call to `_find_price_with_smart_rag` — any Python call may
raise, and this call site is *outside* the `try/except`, so an `.error`
propagates and aborts the whole batch.  `db_write_ok plan_id price` tells
whether the `update(...).execute()` call (the only code inside the
`try/except`) completes without raising; the issued call is recorded in
the write trace either way. -/
def runBatchLoop (services : List ServiceRow)
    (find_price : String → String → Except PyExn (Option ℚ))
    (db_write_ok : String → ℚ → Bool) (now_iso : String) :
    List PlanRow → Nat → Nat → Nat → List PlanPriceWrite →
    Except PyExn (BatchSummary × List PlanPriceWrite)
  | [], processed, updated, skipped, writes => .ok (⟨processed, updated, skipped⟩, writes)
  | plan :: rest, processed, updated, skipped, writes =>
    let processed := processed + 1
    match servicesById services plan.service_id with
    | none => runBatchLoop services find_price db_write_ok now_iso rest
        processed updated (skipped + 1) writes
    | some service_row =>
      let service_name := if service_row.name = "" then service_row.display_name
        else service_row.name
      match find_price service_name plan.plan_name with
      | .error e => .error e
      | .ok none => runBatchLoop services find_price db_write_ok now_iso rest
          processed updated (skipped + 1) writes
      | .ok (some price) =>
        let w : PlanPriceWrite := ⟨plan.id, price, "TRY", now_iso⟩
        if db_write_ok plan.id price then
          runBatchLoop services find_price db_write_ok now_iso rest
            processed (updated + 1) skipped (writes ++ [w])
        else
          runBatchLoop services find_price db_write_ok now_iso rest
            processed updated (skipped + 1) (writes ++ [w])

/-- Model of `update_all_plan_prices`: fetched plans and services are
inputs; returns the summary and the trace of issued plan-price writes, or
the uncaught exception that aborted the batch. -/
def update_all_plan_prices (plans : List PlanRow) (services : List ServiceRow)
    (find_price : String → String → Except PyExn (Option ℚ))
    (db_write_ok : String → ℚ → Bool) (now_iso : String) :
    Except PyExn (BatchSummary × List PlanPriceWrite) :=
  if plans.isEmpty then .ok (⟨0, 0, 0⟩, [])
  else runBatchLoop services find_price db_write_ok now_iso plans 0 0 0 []

/-- The service name the scheduler hands to the pipeline for a plan:
`service_row.get("name") or service_row.get("display_name")` after the
id lookup. -/
def planServiceName (services : List ServiceRow) (plan : PlanRow) : Option String :=
  (servicesById services plan.service_id).map fun row =>
    if row.name = "" then row.display_name else row.name

/-- The plan-price write the scheduler issues for one plan, if any: one
update call exactly when the service matched and the pipeline returned a
usable amount. -/
def planWrite (services : List ServiceRow)
    (find_price : String → String → Except PyExn (Option ℚ)) (now_iso : String)
    (plan : PlanRow) : Option PlanPriceWrite :=
  match planServiceName services plan with
  | none => none
  | some service_name =>
    match find_price service_name plan.plan_name with
    | .ok (some price) => some ⟨plan.id, price, "TRY", now_iso⟩
    | _ => none

/-- Whether a plan's item ends in the `updated` counter: service matched,
pipeline returned an amount, and the persistence write did not raise. -/
def planUpdated (services : List ServiceRow)
    (find_price : String → String → Except PyExn (Option ℚ))
    (db_write_ok : String → ℚ → Bool) (plan : PlanRow) : Bool :=
  match planServiceName services plan with
  | none => false
  | some service_name =>
    match find_price service_name plan.plan_name with
    | .ok (some price) => db_write_ok plan.id price
    | _ => false

/-! ## Retrieval client (`google_search_service.GoogleSearchService`)

The HTTP transport and the JSON body are modelled explicitly so that the
broad `except` clauses of the source are visible: the oracle `http`
returns either a raised transport error (timeout, `raise_for_status`,
`json()` failure …) or a parsed JSON document. -/

/-- A JSON document. -/
inductive Json where
  | null : Json
  | bool (b : Bool) : Json
  | num (q : ℚ) : Json
  | str (s : String) : Json
  | arr (items : List Json) : Json
  | obj (fields : List (String × Json)) : Json

/-- Dictionary lookup on a JSON object given as a field list. -/
def Json.get : Json → String → Option Json
  | .obj fields, key => (fields.find? fun p => p.1 = key).map Prod.snd
  | _, _ => none

/-- `item.get(key, "")` where `item` is expected to be a dict of strings:
yields the string value, the `""` default for a missing key, and a raised
`AttributeError`/`TypeError` (modelled `none`) when `item` is not a dict
or holds a non-string (the processed result is passed to string methods
downstream). -/
def Json.getStrD : Json → String → Option String
  | .obj fields, key =>
    match (fields.find? fun p => p.1 = key).map Prod.snd with
    | none => some ""
    | some (.str s) => some s
    | some _ => none
  | _, _ => none

/-- The settings consumed by `GoogleSearchService.__init__` (`""` models
an unconfigured value, which is falsy). -/
structure GoogleConfig where
  api_key : String
  search_engine_id : String
deriving DecidableEq, Repr

/-- The query parameters of the issued HTTP GET (the `params` dict).
`gl`/`lr`/`hl` are included only when truthy. -/
structure SearchRequest where
  q : String
  num : Int
  gl : Option String
  lr : Option String
  hl : Option String
deriving DecidableEq, Repr

/-- Keep an optional parameter only when truthy (`if gl: params["gl"] =
gl`). -/
def truthyParam : Option String → Option String
  | some s => if s = "" then none else some s
  | none => none

/-- Build one processed result from one element of `data["items"]`,
failing (raised exception) when the element is not a string dict. -/
def parseItem (item : Json) : Option SearchResult := do
  let title ← item.getStrD "title"
  let link ← item.getStrD "link"
  let snippet ← item.getStrD "snippet"
  let displayLink ← item.getStrD "displayLink"
  pure ⟨title, snippet, link, displayLink⟩

/-- Process the JSON body: no `"items"` key yields the empty result list;
an `"items"` array is mapped through `parseItem`, any failure raising out
of the loop (all partial results are discarded by the `except`); a
non-array `"items"` value raises. -/
def parseItems (data : Json) : Option (List SearchResult) :=
  match data with
  | .obj _ =>
    match data.get "items" with
    | none => some []
    | some (.arr items) => items.mapM parseItem
    | some _ => none
  | _ => none

/-- The `params` dict of the one HTTP GET `search_google` can issue:
`{"q": query.strip(), "num": min(num_results, 10)}` plus the truthy
locale parameters. -/
def builtRequest (query : String) (num_results : Int) (gl lr hl : Option String) :
    SearchRequest :=
  ⟨strStrip query, min num_results 10, truthyParam gl, truthyParam lr, truthyParam hl⟩

/-- Model of `GoogleSearchService.search_google`: missing configuration or
a blank query return `[]` before any I/O; the single HTTP call (when
issued) requests `min(num_results, 10)` results; every raised transport or
payload error is caught and returns `[]`.  The second component is the
trace of issued HTTP requests. -/
def search_google (cfg : GoogleConfig) (http : SearchRequest → Except PyExn Json)
    (query : String) (num_results : Int) (gl lr hl : Option String) :
    List SearchResult × List SearchRequest :=
  if cfg.api_key = "" ∨ cfg.search_engine_id = "" then ([], [])
  else if query = "" ∨ strStrip query = "" then ([], [])
  else
    let req := builtRequest query num_results gl lr hl
    match http req with
    | .error _ => ([], [req])
    | .ok data =>
      match parseItems data with
      | none => ([], [req])
      | some results => (results, [req])

/-! ## Supporting lemmas -/

theorem decimalOfStr_null : decimalOfStr PyVal.null = none := rfl

theorem decimalOfStr_num (q : ℚ) : decimalOfStr (PyVal.num q) = some q := rfl

theorem decimalOfStr_strv (s : String) : decimalOfStr (PyVal.strv s) = parseDecimal s := rfl

theorem digit_not_ws {c : Char} (h : c.isDigit = true) : c.isWhitespace = false := by
  cases hws : c.isWhitespace
  · rfl
  · exfalso
    have h4 : ((c = ' ' ∨ c = '\t') ∨ c = '\r') ∨ c = '\n' := by
      simpa [Char.isWhitespace] using hws
    rcases h4 with ((h1 | h1) | h1) | h1 <;> subst h1 <;> simp [Char.isDigit] at h

theorem dropWhile_append_last {p : Char → Bool} {c : Char} (hc : p c = false) :
    ∀ xs : List Char, ∃ ys, List.dropWhile p (xs ++ [c]) = ys ++ [c]
  | [] => ⟨[], by simp [List.dropWhile, hc]⟩
  | x :: xs => by
    by_cases hx : p x
    · obtain ⟨ys, hys⟩ := dropWhile_append_last hc xs
      exact ⟨ys, by simp [List.dropWhile, hx, hys]⟩
    · exact ⟨x :: xs, by simp [List.dropWhile, hx]⟩

theorem pyStrip_cons_of_not_ws {c : Char} {cs : List Char}
    (hc : c.isWhitespace = false) : ∃ ys, pyStrip (c :: cs) = c :: ys := by
  unfold pyStrip
  rw [List.dropWhile_cons_of_neg (by simp [hc])]
  rw [show (c :: cs).reverse = cs.reverse ++ [c] by simp]
  obtain ⟨ys, hys⟩ := dropWhile_append_last hc cs.reverse
  exact ⟨ys.reverse, by rw [hys]; simp⟩

theorem splitSign_of_digit {c : Char} {cs : List Char} (h : c.isDigit = true) :
    splitSign (c :: cs) = (false, c :: cs) := by
  unfold splitSign
  split
  · rename_i t heq; injection heq with h1 _; subst h1; simp [Char.isDigit] at h
  · rename_i t heq; injection heq with h1 _; subst h1; simp [Char.isDigit] at h
  · rfl

theorem parseDecimal_nonneg {s : String} {q : ℚ} {c : Char} {cs : List Char}
    (hps : pyStrip s.data = c :: cs) (hc : c.isDigit = true)
    (h : parseDecimal s = some q) : 0 ≤ q := by
  unfold parseDecimal at h
  rw [hps] at h
  simp only [splitSign_of_digit hc] at h
  split at h
  · exact absurd h (by simp)
  · split at h
    · exact absurd h (by simp)
    · rw [Option.some_inj] at h
      subst h
      refine Rat.mkRat_nonneg ?_ _
      split
      · simp_all
      · positivity

theorem tryDecAt_head {n : Nat} {cs m : List Char} (h : tryDecAt n cs = some m) :
    ∃ c cs', m = c :: cs' ∧ c.isDigit = true := by
  induction n generalizing m with
  | zero => simp [tryDecAt] at h
  | succ n ih =>
    simp only [tryDecAt] at h
    split at h
    case isTrue hpre =>
      obtain ⟨hlen, hall⟩ := hpre
      rcases hp : List.take (n + 1) cs with _ | ⟨c, t⟩
      · rw [hp] at hlen; simp at hlen
      · rw [hp] at hall h
        have hcd : c.isDigit = true := by
          simp only [List.all_cons, Bool.and_eq_true] at hall
          exact hall.1
        split at h
        case h_2 => exact ih h
        case h_1 sep rest hdrop =>
          split at h
          case isFalse => exact ih h
          case isTrue hsep =>
            split at h
            · split at h
              · rw [Option.some_inj] at h
                exact ⟨c, _, by rw [← h]; rfl, hcd⟩
              · exact ih h
            · split at h
              · rw [Option.some_inj] at h
                exact ⟨c, _, by rw [← h]; rfl, hcd⟩
              · exact ih h
            · exact ih h
    case isFalse => exact ih h

theorem tryIntAt_head {lo n : Nat} {cs m : List Char} (h : tryIntAt lo n cs = some m) :
    ∃ c cs', m = c :: cs' ∧ c.isDigit = true := by
  induction n generalizing m with
  | zero => simp [tryIntAt] at h
  | succ n ih =>
    simp only [tryIntAt] at h
    split at h
    · exact absurd h (by simp)
    · split at h
      case isTrue hpre =>
        obtain ⟨hlen, hall⟩ := hpre
        rcases hp : List.take (n + 1) cs with _ | ⟨c, t⟩
        · rw [hp] at hlen; simp at hlen
        · rw [hp] at hall h
          have hcd : c.isDigit = true := by
            simp only [List.all_cons, Bool.and_eq_true] at hall
            exact hall.1
          rw [Option.some_inj] at h
          exact ⟨c, t, h.symm, hcd⟩
      case isFalse => exact ih h

theorem searchDec_head {cs m : List Char} (h : searchDec cs = some m) :
    ∃ c cs', m = c :: cs' ∧ c.isDigit = true := by
  induction cs with
  | nil => simp [searchDec] at h
  | cons c cs ih =>
    rw [searchDec] at h
    split at h
    · rw [Option.some_inj] at h
      subst h
      exact tryDecAt_head (by assumption)
    · exact ih h

theorem searchInt_head {cs m : List Char} (h : searchInt cs = some m) :
    ∃ c cs', m = c :: cs' ∧ c.isDigit = true := by
  induction cs with
  | nil => simp [searchInt] at h
  | cons c cs ih =>
    rw [searchInt] at h
    split at h
    · rw [Option.some_inj] at h
      subst h
      exact tryIntAt_head (by assumption)
    · exact ih h

theorem extract_decimal_nonneg {t : String} {q : ℚ} (h : extract_decimal t = some q) :
    0 ≤ q := by
  unfold extract_decimal at h
  split at h
  case h_1 m hm =>
    obtain ⟨c, cs', hmeq, hcd⟩ := searchDec_head hm
    subst hmeq
    have hcomma : c ≠ ',' := by
      intro hc; subst hc; simp [Char.isDigit] at hcd
    have hmap : (String.mk ((c :: cs').map fun d => if d = ',' then '.' else d)).data
        = c :: (cs'.map fun d => if d = ',' then '.' else d) := by
      simp [hcomma]
    obtain ⟨ys, hys⟩ :=
      @pyStrip_cons_of_not_ws c (cs'.map fun d => if d = ',' then '.' else d)
        (digit_not_ws hcd)
    have hps : pyStrip (String.mk ((c :: cs').map fun d => if d = ',' then '.' else d)).data
        = c :: ys := by
      rw [hmap]; exact hys
    exact parseDecimal_nonneg hps hcd h
  case h_2 hm =>
    split at h
    case h_1 m2 hm2 =>
      obtain ⟨c, cs', hmeq, hcd⟩ := searchInt_head hm2
      subst hmeq
      obtain ⟨ys, hys⟩ := @pyStrip_cons_of_not_ws c cs' (digit_not_ws hcd)
      have hps : pyStrip (String.mk (c :: cs')).data = c :: ys := by
        simpa using hys
      exact parseDecimal_nonneg hps hcd h
    case h_2 => exact absurd h (by simp)

theorem usable_price_pos {t : String} {q : ℚ} (h : usable_price t = some q) : 0 < q := by
  unfold usable_price at h
  split at h
  case h_1 => exact absurd h (by simp)
  case h_2 q' hq' =>
    split at h
    · exact absurd h (by simp)
    case isFalse hne =>
      rw [Option.some_inj] at h
      subst h
      unfold price_decimal_of at hq'
      split at hq'
      · rw [Option.some_inj] at hq'
        exact absurd hq'.symm hne
      · have := extract_decimal_nonneg hq'
        exact lt_of_le_of_ne this (fun habs => hne habs.symm)


/-! ## Claim theorems -/

/-- **C2**: the numeric parser short-circuits stripped `"0"` to no usable
value; otherwise matches a decimal with 1-5 integer digits and 1-2
fractional digits separated by `.` or `,` (normalising `,` to `.`), then
falls back to a bare 2-6 digit integer, yielding no value when neither
matches; in particular `"229.99" → 229.99`, `"229,99" → 229.99`,
`"199" → 199`, and `"fiyat bulunamadı"` and `"0"` yield no value. -/
theorem C2_numeric_parsing :
    usable_price "0" = none ∧
    usable_price "229.99" = some (mkRat 22999 100) ∧
    usable_price "229,99" = some (mkRat 22999 100) ∧
    usable_price "199" = some 199 ∧
    usable_price "fiyat bulunamadı" = none ∧
    (∀ text : String, text ≠ "0" → price_decimal_of text = extract_decimal text) ∧
    (∀ text : String, ∀ m, searchDec text.data = some m →
      extract_decimal text = parseDecimal (String.mk (m.map fun c => if c = ',' then '.' else c))) ∧
    (∀ text : String, searchDec text.data = none →
      extract_decimal text = (searchInt text.data).bind fun m2 => parseDecimal (String.mk m2)) ∧
    (∀ text : String, searchDec text.data = none → searchInt text.data = none →
      extract_decimal text = none) := by
  refine ⟨by decide, by decide, by decide, by decide, by decide, ?_, ?_, ?_, ?_⟩
  · intro text htext
    simp [price_decimal_of, htext]
  · intro text m hm
    simp [extract_decimal, hm]
  · intro text hm
    cases hm2 : searchInt text.data <;> simp [extract_decimal, hm, hm2]
  · intro text hm hm2
    simp [extract_decimal, hm, hm2]

/-- Witness for C2 at concrete inputs. -/
theorem C2_numeric_parsing_witness :
    price_decimal_of "xyz" = extract_decimal "xyz" ∧ extract_decimal "xyz" = none :=
  ⟨C2_numeric_parsing.2.2.2.2.2.1 "xyz" (by decide),
   C2_numeric_parsing.2.2.2.2.2.2.2.2 "xyz" (by decide) (by decide)⟩

/-- **C3, counterexample**: for the whitespace-only service name `" "`
(truthy in Python, so not rejected by `if not service_name`), the pipeline
*does* invoke the search backend — one search call is issued. -/
theorem C3_counterexample :
    (findPriceT (fun _ => []) (fun _ => none) OFFICIAL_DOMAINS " " "Premium").2.searchCalls
      = 1 := by decide

/-- **C3, amended**: for every call where `service_name` or `plan_name` is
the *empty* string, the pipeline returns a null amount with confidence
`"low"` without invoking either backend.  (Whitespace-only input is not
short-circuited: see the counterexample.) -/
theorem C3_empty_input_short_circuits (search : String → List SearchResult)
    (gemini : String → Option String) (od : List (String × List String))
    (service_name plan_name : String) (h : service_name = "" ∨ plan_name = "") :
    findPriceT search gemini od service_name plan_name =
      (⟨none, "TRY", none, "low"⟩, ⟨0, 0⟩) := by
  unfold findPriceT
  rw [if_pos h]

/-- Witness for C3 at a concrete input. -/
theorem C3_empty_input_short_circuits_witness :
    findPriceT (fun _ => [⟨"t", "s", "l", "d"⟩]) (fun _ => some "229.99") OFFICIAL_DOMAINS
      "" "Premium" = (⟨none, "TRY", none, "low"⟩, ⟨0, 0⟩) :=
  C3_empty_input_short_circuits _ _ _ "" "Premium" (Or.inl rfl)

/-- **C9**: with fixed backend behaviours, running `find_price` twice on
the same input yields the same response both times; the object state
(`self.official_domains`) is read but never written, so the second run
starts from an identical state. -/
theorem C9_idempotent (search : String → List SearchResult) (gemini : String → Option String)
    (st : SmartPriceServiceState) (service_name plan_name : String) :
    (findPriceSt search gemini st service_name plan_name).2 = st ∧
    (findPriceSt search gemini (findPriceSt search gemini st service_name plan_name).2
        service_name plan_name).1 =
      (findPriceSt search gemini st service_name plan_name).1 :=
  ⟨rfl, rfl⟩

/-- **C7**: when the authority filter leaves no result (also covering an
empty retrieval), the pipeline returns a null amount with confidence
`"low"` and never calls the extraction backend. -/
theorem C7_no_official_results (search : String → List SearchResult)
    (gemini : String → Option String) (od : List (String × List String))
    (service_name plan_name : String)
    (h1 : service_name ≠ "") (h2 : plan_name ≠ "")
    (hf : filter_official_results od (search (findPriceQuery service_name plan_name))
        (normalize_service_key service_name) = []) :
    (findPriceT search gemini od service_name plan_name).1 = ⟨none, "TRY", none, "low"⟩ ∧
    (findPriceT search gemini od service_name plan_name).2.geminiCalls = 0 := by
  unfold findPriceT
  rw [if_neg (by tauto)]
  by_cases hr : (search (findPriceQuery service_name plan_name)).isEmpty
  · rw [if_pos hr]
    exact ⟨rfl, rfl⟩
  · rw [if_neg hr]
    simp [hf]

/-- Witness for C7 at a concrete input: the only retrieved result is from
an unofficial domain, so the filter removes it. -/
theorem C7_no_official_results_witness :
    (findPriceT (fun _ => [⟨"Netflix fiyat", "bir blog yazısı",
        "https://blog.example.com/netflix", "blog.example.com"⟩])
      (fun _ => some "229.99") OFFICIAL_DOMAINS "Netflix" "Premium").1
        = ⟨none, "TRY", none, "low"⟩ ∧
    (findPriceT (fun _ => [⟨"Netflix fiyat", "bir blog yazısı",
        "https://blog.example.com/netflix", "blog.example.com"⟩])
      (fun _ => some "229.99") OFFICIAL_DOMAINS "Netflix" "Premium").2.geminiCalls = 0 :=
  C7_no_official_results _ _ _ "Netflix" "Premium" (by decide) (by decide) (by decide)

/-- **C10**: every pipeline response is a `PriceResponse` record — each
return site of `find_price` constructs exactly the keys `price`,
`currency`, `source`, `confidence` — with `currency = "TRY"`,
`confidence ∈ {"low", "high"}`, `confidence = "high"` iff `price` is
non-null, and any non-null price strictly positive. -/
theorem C10_response_shape (search : String → List SearchResult)
    (gemini : String → Option String) (od : List (String × List String))
    (service_name plan_name : String) :
    (findPriceT search gemini od service_name plan_name).1.currency = "TRY" ∧
    ((findPriceT search gemini od service_name plan_name).1.confidence = "low" ∨
      (findPriceT search gemini od service_name plan_name).1.confidence = "high") ∧
    ((findPriceT search gemini od service_name plan_name).1.confidence = "high" ↔
      (findPriceT search gemini od service_name plan_name).1.price ≠ none) ∧
    (∀ q, (findPriceT search gemini od service_name plan_name).1.price = some q → 0 < q) := by
  simp only [findPriceT]
  split
  · simp
  · split
    · simp
    · split
      · simp
      · split
        · simp
        · split
          · simp
          · split
            · simp
            · rename_i q hq
              refine ⟨rfl, Or.inr rfl, by simp, ?_⟩
              intro q2 hq2
              rw [Option.some_inj] at hq2
              subst hq2
              exact usable_price_pos hq

/-- Witness for C10 at a concrete input whose pipeline yields a high
confidence. -/
theorem C10_response_shape_witness :
    ((findPriceT (fun _ => [⟨"Netflix", "Netflix Standard 229,99 TL",
        "https://www.netflix.com/tr/", "www.netflix.com"⟩])
      (fun _ => some "229,99") OFFICIAL_DOMAINS "Netflix" "Standard").1.price ≠ none) ∧
    (∀ q, (findPriceT (fun _ => [⟨"Netflix", "Netflix Standard 229,99 TL",
        "https://www.netflix.com/tr/", "www.netflix.com"⟩])
      (fun _ => some "229,99") OFFICIAL_DOMAINS "Netflix" "Standard").1.price = some q →
        0 < q) :=
  ⟨(C10_response_shape (fun _ => [⟨"Netflix", "Netflix Standard 229,99 TL",
        "https://www.netflix.com/tr/", "www.netflix.com"⟩])
      (fun _ => some "229,99") OFFICIAL_DOMAINS "Netflix" "Standard").2.2.1.mp (by decide),
   (C10_response_shape (fun _ => [⟨"Netflix", "Netflix Standard 229,99 TL",
        "https://www.netflix.com/tr/", "www.netflix.com"⟩])
      (fun _ => some "229,99") OFFICIAL_DOMAINS "Netflix" "Standard").2.2.2⟩

/-- The alert status as a function of the two `Decimal` coercions, for a
subscription with a truthy linked plan. -/
theorem status_characterization (cp : PyVal) (amt : Option PyVal) :
    calculate_price_alert_status ⟨some ⟨cp⟩, amt⟩ =
      match decimalOfStr (amt.getD (PyVal.num 0)), decimalOfStr cp with
      | some user_amount, some cached_price =>
        if 0 < cached_price ∧ user_amount ≠ cached_price then "update_required" else "none"
      | _, _ => "none" := by
  cases cp with
  | null =>
    cases hu : decimalOfStr (amt.getD (PyVal.num 0)) <;>
      simp [calculate_price_alert_status, decimalOfStr_null, hu]
  | num qv =>
    cases hu : decimalOfStr (amt.getD (PyVal.num 0)) <;>
      simp [calculate_price_alert_status, decimalOfStr_num, hu]
  | strv s =>
    cases hu : decimalOfStr (amt.getD (PyVal.num 0)) <;>
      cases hps : parseDecimal s <;>
      simp [calculate_price_alert_status, decimalOfStr_strv, hu, hps]

/-- **C1**: the derived price-alert status never raises (it is total,
always `"none"` or `"update_required"`) and equals `"update_required"`
exactly when the subscription has a truthy linked plan whose cached price
is non-null, both values survive the `Decimal(str(...))` round-trip, and
the cached price is strictly positive and differs from the stored amount;
every other case — missing plan, null cached price, zero or negative
cached price, equal amounts, or a failed conversion — yields `"none"`. -/
theorem C1_price_alert_status (subscription : Subscription) :
    (calculate_price_alert_status subscription = "update_required" ↔
      ∃ plans, subscription.service_plans = some plans ∧
        plans.cached_price ≠ PyVal.null ∧
        ∃ cached_price user_amount,
          decimalOfStr plans.cached_price = some cached_price ∧
          decimalOfStr (subscription.amount.getD (PyVal.num 0)) = some user_amount ∧
          0 < cached_price ∧ user_amount ≠ cached_price) ∧
    (calculate_price_alert_status subscription = "none" ∨
      calculate_price_alert_status subscription = "update_required") := by
  obtain ⟨sp, amt⟩ := subscription
  cases sp with
  | none => simp [calculate_price_alert_status]
  | some plans =>
    obtain ⟨cp⟩ := plans
    rw [status_characterization]
    cases hu : decimalOfStr (amt.getD (PyVal.num 0)) with
    | none =>
      cases hc : decimalOfStr cp <;> simp [hu, hc] <;> decide
    | some u =>
      cases hc : decimalOfStr cp with
      | none => simp [hu, hc] <;> decide
      | some c =>
        simp only [hu, hc]
        refine ⟨?_, ?_⟩
        · constructor
          · intro h
            have hcond : 0 < c ∧ u ≠ c := by
              by_contra hC
              rw [if_neg hC] at h
              exact absurd h (by decide)
            have hnn : cp ≠ PyVal.null := by
              intro hx
              rw [hx, decimalOfStr_null] at hc
              exact absurd hc (by simp)
            exact ⟨⟨cp⟩, rfl, hnn, c, u, hc, rfl, hcond.1, hcond.2⟩
          · rintro ⟨plans2, hp2, hnn, c2, u2, hc2, hu2, hpos2, hne2⟩
            rw [Option.some_inj] at hp2
            subst hp2
            have hc2x : some c = some c2 := by
              rw [← hc]
              exact hc2.symm ▸ rfl
            rw [Option.some_inj] at hc2x
            subst hc2x
            rw [Option.some_inj] at hu2
            subst hu2
            rw [if_pos ⟨hpos2, hne2⟩]
        · by_cases hcond : 0 < c ∧ u ≠ c
          · rw [if_pos hcond]; right; rfl
          · rw [if_neg hcond]; left; rfl

/-- **C8**: `search_google` caps the requested result count at
`min(num_results, 10)` on the single HTTP request it may issue, and
returns the empty list — never an exception — on missing configuration, a
blank query, a raised transport error, or a malformed payload. -/
theorem C8_search_contract (cfg : GoogleConfig) (http : SearchRequest → Except PyExn Json)
    (query : String) (num_results : Int) (gl lr hl : Option String) :
    (∀ req ∈ (search_google cfg http query num_results gl lr hl).2,
      req = builtRequest query num_results gl lr hl ∧
      req.num = min num_results 10 ∧ req.num ≤ 10) ∧
    (cfg.api_key = "" ∨ cfg.search_engine_id = "" →
      search_google cfg http query num_results gl lr hl = ([], [])) ∧
    (query = "" ∨ strStrip query = "" →
      search_google cfg http query num_results gl lr hl = ([], [])) ∧
    (∀ e, http (builtRequest query num_results gl lr hl) = Except.error e →
      (search_google cfg http query num_results gl lr hl).1 = []) ∧
    (∀ data, http (builtRequest query num_results gl lr hl) = Except.ok data →
      parseItems data = none →
      (search_google cfg http query num_results gl lr hl).1 = []) := by
  refine ⟨?_, ?_, ?_, ?_, ?_⟩
  · intro req hreq
    unfold search_google at hreq
    split at hreq
    · simp at hreq
    · split at hreq
      · simp at hreq
      · have hr : req = builtRequest query num_results gl lr hl := by
          cases hh : http (builtRequest query num_results gl lr hl) with
          | error e =>
            simp only [hh] at hreq
            simpa using hreq
          | ok data =>
            cases hp : parseItems data with
            | none =>
              simp only [hh, hp] at hreq
              simpa using hreq
            | some results =>
              simp only [hh, hp] at hreq
              simpa using hreq
        subst hr
        exact ⟨rfl, rfl, min_le_right _ _⟩
  · intro h
    unfold search_google
    rw [if_pos h]
  · intro h
    unfold search_google
    by_cases hc : cfg.api_key = "" ∨ cfg.search_engine_id = ""
    · rw [if_pos hc]
    · rw [if_neg hc, if_pos h]
  · intro e he
    unfold search_google
    by_cases hc : cfg.api_key = "" ∨ cfg.search_engine_id = ""
    · rw [if_pos hc]
    · rw [if_neg hc]
      by_cases hq : query = "" ∨ strStrip query = ""
      · rw [if_pos hq]
      · rw [if_neg hq]
        simp [he]
  · intro data hdata hparse
    unfold search_google
    by_cases hc : cfg.api_key = "" ∨ cfg.search_engine_id = ""
    · rw [if_pos hc]
    · rw [if_neg hc]
      by_cases hq : query = "" ∨ strStrip query = ""
      · rw [if_pos hq]
      · rw [if_neg hq]
        simp [hdata, hparse]

/-- Witness for C8 at a concrete input: a transport error yields `[]`,
and the issued request was capped from 50 to 10. -/
theorem C8_search_contract_witness :
    (search_google ⟨"k", "cx"⟩ (fun _ => Except.error PyExn.exn)
      "netflix fiyat" 50 none none none).1 = [] ∧
    (builtRequest "netflix fiyat" 50 none none none).num = min 50 10 ∧
    (builtRequest "netflix fiyat" 50 none none none).num ≤ 10 :=
  ⟨(C8_search_contract ⟨"k", "cx"⟩ (fun _ => Except.error PyExn.exn)
      "netflix fiyat" 50 none none none).2.2.2.1 PyExn.exn rfl,
   ((C8_search_contract ⟨"k", "cx"⟩ (fun _ => Except.error PyExn.exn)
      "netflix fiyat" 50 none none none).1
      (builtRequest "netflix fiyat" 50 none none none) (by decide)).2⟩

/-- The batch loop, when no per-item pipeline call raises, completes with
`processed` counting every plan, `updated`/`skipped` counting the
`planUpdated` classification, and the write trace extended by exactly the
`planWrite` records. -/
theorem runBatchLoop_ok (services : List ServiceRow)
    (find_price : String → String → Except PyExn (Option ℚ))
    (db_write_ok : String → ℚ → Bool) (now_iso : String) (plans : List PlanRow)
    (hok : ∀ plan ∈ plans, ∀ sname, planServiceName services plan = some sname →
      ∃ v, find_price sname plan.plan_name = Except.ok v) :
    ∀ p u s ws, runBatchLoop services find_price db_write_ok now_iso plans p u s ws =
      Except.ok (⟨p + plans.length,
            u + plans.countP (fun plan => planUpdated services find_price db_write_ok plan),
            s + plans.countP (fun plan => !planUpdated services find_price db_write_ok plan)⟩,
           ws ++ plans.filterMap (planWrite services find_price now_iso)) := by
  induction plans with
  | nil => intro p u s ws; simp [runBatchLoop]
  | cons plan rest ih =>
    intro p u s ws
    have hokr : ∀ pl ∈ rest, ∀ sname, planServiceName services pl = some sname →
        ∃ v, find_price sname pl.plan_name = Except.ok v :=
      fun pl hm sname hsn => hok pl (List.mem_cons_of_mem _ hm) sname hsn
    rw [runBatchLoop]
    cases hsrv : servicesById services plan.service_id with
    | none =>
      have hup : planUpdated services find_price db_write_ok plan = false := by
        simp [planUpdated, planServiceName, hsrv]
      have hwr : planWrite services find_price now_iso plan = none := by
        simp [planWrite, planServiceName, hsrv]
      rw [ih hokr]
      simp [List.countP_cons, List.filterMap_cons, hup, hwr]
      omega
    | some service_row =>
      have hsn : planServiceName services plan =
          some (if service_row.name = "" then service_row.display_name
            else service_row.name) := by
        simp [planServiceName, hsrv]
      obtain ⟨v, hfp⟩ := hok plan (List.mem_cons_self _ _) _ hsn
      cases v with
      | none =>
        have hup : planUpdated services find_price db_write_ok plan = false := by
          simp [planUpdated, hsn, hfp]
        have hwr : planWrite services find_price now_iso plan = none := by
          simp [planWrite, hsn, hfp]
        simp only [hfp]
        rw [ih hokr]
        simp [List.countP_cons, List.filterMap_cons, hup, hwr]
        omega
      | some price =>
        have hup : planUpdated services find_price db_write_ok plan
            = db_write_ok plan.id price := by
          simp [planUpdated, hsn, hfp]
        have hwr : planWrite services find_price now_iso plan =
            some ⟨plan.id, price, "TRY", now_iso⟩ := by
          simp [planWrite, hsn, hfp]
        simp only [hfp]
        cases hdb : db_write_ok plan.id price with
        | true =>
          simp only [ih hokr]
          simp [List.countP_cons, List.filterMap_cons, hup, hwr, hdb]
          try omega
        | false =>
          simp only [ih hokr]
          simp [List.countP_cons, List.filterMap_cons, hup, hwr, hdb]
          try omega

/-- `update_all_plan_prices`, when no per-item pipeline call raises,
returns exactly the `planUpdated`/`planWrite` characterisation. -/
theorem update_all_plan_prices_ok (plans : List PlanRow) (services : List ServiceRow)
    (find_price : String → String → Except PyExn (Option ℚ))
    (db_write_ok : String → ℚ → Bool) (now_iso : String)
    (hok : ∀ plan ∈ plans, ∀ sname, planServiceName services plan = some sname →
      ∃ v, find_price sname plan.plan_name = Except.ok v) :
    update_all_plan_prices plans services find_price db_write_ok now_iso =
      Except.ok (⟨plans.length,
            plans.countP (fun plan => planUpdated services find_price db_write_ok plan),
            plans.countP (fun plan => !planUpdated services find_price db_write_ok plan)⟩,
           plans.filterMap (planWrite services find_price now_iso)) := by
  unfold update_all_plan_prices
  split
  · rename_i hpl
    rw [List.isEmpty_iff] at hpl
    subst hpl
    simp
  · simpa using runBatchLoop_ok services find_price db_write_ok now_iso plans hok 0 0 0 []

/-- The total count splits exactly between `updated` and `skipped`. -/
theorem countP_updated_add_not (plans : List PlanRow) (services : List ServiceRow)
    (find_price : String → String → Except PyExn (Option ℚ))
    (db_write_ok : String → ℚ → Bool) :
    plans.length =
      plans.countP (fun plan => planUpdated services find_price db_write_ok plan) +
      plans.countP (fun plan => !planUpdated services find_price db_write_ok plan) := by
  have h := List.length_eq_countP_add_countP
    (fun plan => planUpdated services find_price db_write_ok plan) plans
  have hfun : (fun plan => decide
      ¬(planUpdated services find_price db_write_ok plan = true)) =
      (fun plan => !planUpdated services find_price db_write_ok plan) := by
    funext plan
    cases planUpdated services find_price db_write_ok plan <;> simp
  rw [hfun] at h
  exact h

/-- **C4, counterexample**: the `try/except` of the per-item loop wraps
only the persistence write; an unexpected exception raised by the
pipeline call (`await _find_price_with_smart_rag(...)`) propagates and
aborts the whole batch — with two plans, the first item raising leaves
the batch with no summary at all instead of `processed = 2`. -/
theorem C4_counterexample :
    update_all_plan_prices
      [⟨"p1", "s1", "Basic"⟩, ⟨"p2", "s1", "Premium"⟩]
      [⟨"s1", "Netflix", "Netflix"⟩]
      (fun _ _ => Except.error PyExn.exn) (fun _ _ => true) "2026-02-03T00:00:00+00:00"
      = Except.error PyExn.exn := rfl

/-- **C4, amended**: when the pipeline stage itself does not raise, an
unexpected exception inside any item's *persistence write* is caught and
every remaining item is still processed: the batch completes with the
exact summary `⟨plans.length, countP planUpdated, countP !planUpdated⟩`,
so `processed` equals the number of plans and
`processed = updated + skipped`; and an item whose service matched and
whose pipeline returned an amount but whose write raised satisfies
`planUpdated = false`, i.e. it is counted in `skipped` (which counts
exactly the `!planUpdated` items), never in `updated`. -/
theorem C4_batch_isolation_amended (plans : List PlanRow) (services : List ServiceRow)
    (find_price : String → String → Except PyExn (Option ℚ))
    (db_write_ok : String → ℚ → Bool) (now_iso : String)
    (hok : ∀ plan ∈ plans, ∀ sname, planServiceName services plan = some sname →
      ∃ v, find_price sname plan.plan_name = Except.ok v) :
    ∃ writes,
      update_all_plan_prices plans services find_price db_write_ok now_iso =
        Except.ok (⟨plans.length,
          plans.countP (fun plan => planUpdated services find_price db_write_ok plan),
          plans.countP (fun plan => !planUpdated services find_price db_write_ok plan)⟩,
          writes) ∧
      plans.length =
        plans.countP (fun plan => planUpdated services find_price db_write_ok plan) +
        plans.countP (fun plan => !planUpdated services find_price db_write_ok plan) ∧
      ∀ plan ∈ plans, ∀ sname price,
        planServiceName services plan = some sname →
        find_price sname plan.plan_name = Except.ok (some price) →
        db_write_ok plan.id price = false →
        planUpdated services find_price db_write_ok plan = false ∧
        (!planUpdated services find_price db_write_ok plan) = true := by
  refine ⟨_, update_all_plan_prices_ok plans services find_price db_write_ok now_iso hok,
    countP_updated_add_not plans services find_price db_write_ok, ?_⟩
  intro plan hplan sname price hsn hfp hdb
  have hnot : planUpdated services find_price db_write_ok plan = false := by
    simp [planUpdated, hsn, hfp, hdb]
  exact ⟨hnot, by rw [hnot]; rfl⟩

/-- Witness for C4 (amended) at a concrete input: the first plan's write
raises (`db_write_ok` is false for it), yet both plans are processed —
the summary is `{processed: 2, updated: 1, skipped: 1}`, the failed-write
item counted as skipped. -/
theorem C4_batch_isolation_amended_witness :
    ∃ writes,
      update_all_plan_prices [⟨"p1", "s1", "Basic"⟩, ⟨"p2", "s2", "Premium"⟩]
        [⟨"s1", "Netflix", "Netflix"⟩, ⟨"s2", "Spotify", "Spotify"⟩]
        (fun _ _ => Except.ok (some 5)) (fun plan_id _ => plan_id == "p2") "t0" =
        Except.ok (⟨2, 1, 1⟩, writes) ∧
      (2 : Nat) = 1 + 1 ∧
      ∀ plan ∈ [(⟨"p1", "s1", "Basic"⟩ : PlanRow), ⟨"p2", "s2", "Premium"⟩],
        ∀ sname price,
        planServiceName [⟨"s1", "Netflix", "Netflix"⟩, ⟨"s2", "Spotify", "Spotify"⟩] plan
          = some sname →
        (fun _ _ => Except.ok (some 5) :
          String → String → Except PyExn (Option ℚ)) sname plan.plan_name =
          Except.ok (some price) →
        (fun plan_id _ => plan_id == "p2" : String → ℚ → Bool) plan.id price = false →
        planUpdated [⟨"s1", "Netflix", "Netflix"⟩, ⟨"s2", "Spotify", "Spotify"⟩]
          (fun _ _ => Except.ok (some 5)) (fun plan_id _ => plan_id == "p2") plan = false ∧
        (!planUpdated [⟨"s1", "Netflix", "Netflix"⟩, ⟨"s2", "Spotify", "Spotify"⟩]
          (fun _ _ => Except.ok (some 5)) (fun plan_id _ => plan_id == "p2") plan) = true :=
  C4_batch_isolation_amended [⟨"p1", "s1", "Basic"⟩, ⟨"p2", "s2", "Premium"⟩]
    [⟨"s1", "Netflix", "Netflix"⟩, ⟨"s2", "Spotify", "Spotify"⟩]
    (fun _ _ => Except.ok (some 5)) (fun plan_id _ => plan_id == "p2") "t0"
    (fun _ _ _ _ => ⟨some 5, rfl⟩)

/-- The fields of a produced plan-price write record. -/
theorem planWrite_spec {services : List ServiceRow}
    {find_price : String → String → Except PyExn (Option ℚ)}
    {now_iso : String} {plan : PlanRow} {w : PlanPriceWrite}
    (h : planWrite services find_price now_iso plan = some w) :
    ∃ sname, planServiceName services plan = some sname ∧
      find_price sname plan.plan_name = Except.ok (some w.cached_price) ∧
      w.plan_id = plan.id ∧ w.currency = "TRY" ∧ w.last_updated_ai = now_iso := by
  unfold planWrite at h
  split at h
  · exact absurd h (by simp)
  · rename_i sname hsn
    split at h
    · rename_i price hfp
      rw [Option.some_inj] at h
      subst h
      exact ⟨sname, hsn, hfp, rfl, rfl, rfl⟩
    · exact absurd h (by simp)

/-- **C5, counterexample**: the cron pipeline has no zero filter — when
the extraction backend answers `"0,0"`, `_extract_decimal` yields
`Decimal 0`, which is *not* `None`, so the scheduler issues a write that
sets the plan's cached price to zero (and counts the item as updated). -/
theorem C5_counterexample :
    update_all_plan_prices [⟨"plan-7", "svc-1", "Premium"⟩]
      [⟨"svc-1", "Spotify", "Spotify"⟩]
      (fun sname pname => Except.ok (find_price_with_smart_rag
        (fun _ => [⟨"Spotify Premium", "Spotify Premium fiyatı",
          "https://www.spotify.com/tr/premium/", "www.spotify.com"⟩])
        (fun _ _ => some "0,0") sname pname))
      (fun _ _ => true) "t1"
      = Except.ok (⟨1, 1, 0⟩, [⟨"plan-7", 0, "TRY", "t1"⟩]) := rfl

/-- **C5, amended**: the scheduler issues a write to a plan's row exactly
when the pipeline returned a usable amount — any regex-extracted
`Decimal`, including zero — and each issued write carries that amount,
currency `"TRY"`, and the fresh timestamp; a plan whose pipeline outcome
is `None` produces no write at all (never cleared to null). -/
theorem C5_write_frame_amended (plans : List PlanRow) (services : List ServiceRow)
    (find_price : String → String → Except PyExn (Option ℚ))
    (db_write_ok : String → ℚ → Bool) (now_iso : String)
    (hok : ∀ plan ∈ plans, ∀ sname, planServiceName services plan = some sname →
      ∃ v, find_price sname plan.plan_name = Except.ok v) :
    ∃ summary,
      update_all_plan_prices plans services find_price db_write_ok now_iso =
        Except.ok (summary, plans.filterMap (planWrite services find_price now_iso)) ∧
      ∀ w ∈ plans.filterMap (planWrite services find_price now_iso),
        w.currency = "TRY" ∧ w.last_updated_ai = now_iso ∧
        ∃ plan ∈ plans, w.plan_id = plan.id ∧ ∃ sname,
          planServiceName services plan = some sname ∧
          find_price sname plan.plan_name = Except.ok (some w.cached_price) := by
  refine ⟨_, update_all_plan_prices_ok plans services find_price db_write_ok now_iso hok, ?_⟩
  intro w hw
  rw [List.mem_filterMap] at hw
  obtain ⟨plan, hplan, hpw⟩ := hw
  obtain ⟨sname, hsn, hfp, hid, hcur, hts⟩ := planWrite_spec hpw
  exact ⟨hcur, hts, plan, hplan, hid, sname, hsn, hfp⟩

/-- Witness for C5 (amended) at a concrete input: one plan with a usable
amount is written with `"TRY"` and the fresh timestamp; the other, whose
pipeline returned `None`, produces no write. -/
theorem C5_write_frame_amended_witness :
    ∃ summary,
      update_all_plan_prices
          [⟨"p1", "s1", "Basic"⟩, ⟨"p2", "s2", "Premium"⟩]
          [⟨"s1", "Netflix", "Netflix"⟩, ⟨"s2", "Spotify", "Spotify"⟩]
          (fun sname _ => Except.ok (if sname = "Netflix" then some 229 else none))
          (fun _ _ => true) "t4" =
        Except.ok (summary,
          [⟨"p1", "s1", "Basic"⟩, ⟨"p2", "s2", "Premium"⟩].filterMap
            (planWrite [⟨"s1", "Netflix", "Netflix"⟩, ⟨"s2", "Spotify", "Spotify"⟩]
              (fun sname _ => Except.ok (if sname = "Netflix" then some 229 else none)) "t4")) ∧
      ∀ w ∈ [⟨"p1", "s1", "Basic"⟩, ⟨"p2", "s2", "Premium"⟩].filterMap
          (planWrite [⟨"s1", "Netflix", "Netflix"⟩, ⟨"s2", "Spotify", "Spotify"⟩]
            (fun sname _ => Except.ok (if sname = "Netflix" then some 229 else none)) "t4"),
        w.currency = "TRY" ∧ w.last_updated_ai = "t4" ∧
        ∃ plan ∈ [⟨"p1", "s1", "Basic"⟩, ⟨"p2", "s2", "Premium"⟩],
          w.plan_id = plan.id ∧ ∃ sname,
          planServiceName [⟨"s1", "Netflix", "Netflix"⟩, ⟨"s2", "Spotify", "Spotify"⟩]
            plan = some sname ∧
          (fun sname _ => Except.ok (if sname = "Netflix" then some 229 else none) :
            String → String → Except PyExn (Option ℚ)) sname plan.plan_name =
            Except.ok (some w.cached_price) :=
  C5_write_frame_amended [⟨"p1", "s1", "Basic"⟩, ⟨"p2", "s2", "Premium"⟩]
    [⟨"s1", "Netflix", "Netflix"⟩, ⟨"s2", "Spotify", "Spotify"⟩]
    (fun sname _ => Except.ok (if sname = "Netflix" then some 229 else none))
    (fun _ _ => true) "t4"
    (fun _ _ _ _ => ⟨_, rfl⟩)

/-- **C6, counterexample**: a pipeline outcome of `Decimal 0` — a
low-confidence result under the spec's classifier — is persisted and
counted as `updated`, so the summary is `{1, 1, 0}` where the claim's
classification requires `{1, 0, 1}`. -/
theorem C6_counterexample :
    update_all_plan_prices [⟨"pl-1", "sv-1", "Standard"⟩]
      [⟨"sv-1", "Netflix", "Netflix"⟩]
      (fun sname pname => Except.ok (find_price_with_smart_rag
        (fun _ => [⟨"Netflix fiyatları", "Netflix Standard plan fiyatı",
          "https://www.netflix.com/tr/", "www.netflix.com"⟩])
        (fun _ _ => some "0.00") sname pname))
      (fun _ _ => true) "t5"
      = Except.ok (⟨1, 1, 0⟩, [⟨"pl-1", 0, "TRY", "t5"⟩]) := rfl

/-- **C6, amended**: when no pipeline call raises, the batch summary is
exactly `{processed = number of plans, updated = items whose service
matched, whose pipeline returned a usable amount (possibly zero) and
whose write succeeded, skipped = the rest}`, with
`processed = updated + skipped`; in particular the 5-plan scenario — 2
unmatched services, 1 pipeline `None`, 2 usable positive amounts — gives
`{processed: 5, updated: 2, skipped: 3}`. -/
theorem C6_summary_amended :
    (∀ (plans : List PlanRow) (services : List ServiceRow)
      (find_price : String → String → Except PyExn (Option ℚ))
      (db_write_ok : String → ℚ → Bool) (now_iso : String),
      (∀ plan ∈ plans, ∀ sname, planServiceName services plan = some sname →
        ∃ v, find_price sname plan.plan_name = Except.ok v) →
      ∃ writes,
        update_all_plan_prices plans services find_price db_write_ok now_iso =
          Except.ok (⟨plans.length,
            plans.countP (fun plan => planUpdated services find_price db_write_ok plan),
            plans.countP (fun plan => !planUpdated services find_price db_write_ok plan)⟩,
            writes) ∧
        plans.length =
          plans.countP (fun plan => planUpdated services find_price db_write_ok plan) +
          plans.countP (fun plan => !planUpdated services find_price db_write_ok plan)) ∧
    update_all_plan_prices
      [⟨"p1", "s1", "Basic"⟩, ⟨"p2", "s2", "Standard"⟩, ⟨"p3", "s3", "Plus"⟩,
        ⟨"p4", "s4", "Mega"⟩, ⟨"p5", "s5", "Ultra"⟩]
      [⟨"s1", "SvcA", "Service A"⟩, ⟨"s2", "SvcB", "Service B"⟩,
        ⟨"s3", "SvcC", "Service C"⟩]
      (fun sname _ => Except.ok (if sname = "SvcB" then some (mkRat 19999 100)
        else if sname = "SvcC" then some 229 else none))
      (fun _ _ => true) "t2" =
      Except.ok (⟨5, 2, 3⟩,
        [⟨"p2", mkRat 19999 100, "TRY", "t2"⟩, ⟨"p3", 229, "TRY", "t2"⟩]) := by
  constructor
  · intro plans services find_price db_write_ok now_iso hok
    exact ⟨_, update_all_plan_prices_ok plans services find_price db_write_ok now_iso hok,
      countP_updated_add_not plans services find_price db_write_ok⟩
  · rfl

/-- Witness for C6 (amended) at a concrete input. -/
theorem C6_summary_amended_witness :
    ∃ writes,
      update_all_plan_prices [⟨"p1", "s1", "Basic"⟩] [⟨"s1", "Netflix", "Netflix"⟩]
        (fun _ _ => Except.ok none) (fun _ _ => true) "t3" =
        Except.ok (⟨1, 0, 1⟩, writes) ∧ (1 : Nat) = 0 + 1 :=
  C6_summary_amended.1 [⟨"p1", "s1", "Basic"⟩] [⟨"s1", "Netflix", "Netflix"⟩]
    (fun _ _ => Except.ok none) (fun _ _ => true) "t3" (fun _ _ _ _ => ⟨none, rfl⟩)

/-- Witness for C1 at a concrete subscription: cached `179.99` differing
from stored `149.99` flags `update_required`. -/
theorem C1_price_alert_status_witness :
    calculate_price_alert_status ⟨some ⟨PyVal.num (mkRat 17999 100)⟩,
      some (PyVal.num (mkRat 14999 100))⟩ = "update_required" :=
  (C1_price_alert_status ⟨some ⟨PyVal.num (mkRat 17999 100)⟩,
      some (PyVal.num (mkRat 14999 100))⟩).1.mpr
    ⟨⟨PyVal.num (mkRat 17999 100)⟩, rfl, by decide,
      mkRat 17999 100, mkRat 14999 100, rfl, rfl, by decide, by decide⟩

end Billio
